import Mathlib

/-!
Shallow embedding of `src/main.py` (ActiveCampaign MCP server).

The program is a thin synchronous façade: every tool resolves credentials
through the Nango broker and then performs one HTTP call against the
ActiveCampaign API.  We model the external world (environment variables,
the broker's single deterministic response, and the target API as a
function from requests to responses) explicitly, and every embedded
function returns its Python result as an `Except PyError` value paired
with the trace of network round trips it performed, in order.
-/

/-- JSON values, as produced by `response.json()` and built for request
bodies.  Objects are association lists in insertion order (Python dicts
preserve insertion order). -/
inductive Json where
  | null : Json
  | str (s : String) : Json
  | num (n : Int) : Json
  | bool (b : Bool) : Json
  | arr (xs : List Json) : Json
  | obj (kvs : List (String × Json)) : Json
deriving Repr

/-- Key lookup on a JSON object's association list (first occurrence;
parsed Python JSON objects have distinct keys). -/
def jlookup : List (String × Json) → String → Option Json
  | [], _ => none
  | (k, v) :: rest, key => if k = key then some v else jlookup rest key

/-- Python truthiness of a JSON value (`if not api_key: ...`). -/
def jtruthy : Json → Bool
  | .null => false
  | .str s => s ≠ ""
  | .num n => n ≠ 0
  | .bool b => b
  | .arr xs => !xs.isEmpty
  | .obj kvs => !kvs.isEmpty

/-- Python truthiness of an optional JSON value (`None` is falsy). -/
def otruthy : Option Json → Bool
  | none => false
  | some j => jtruthy j

/-- Python `str()` rendering used by f-string interpolation
(`f"https://{hostname}"`).  Container renderings are schematic; the
program only ever interpolates strings in practice. -/
def Json.pyStr : Json → String
  | .null => "None"
  | .str s => s
  | .num n => toString n
  | .bool b => if b then "True" else "False"
  | .arr _ => "[...]"
  | .obj _ => "{...}"

/-- The chain `credentials.get(k1, {}).get(k2)` from the Python source.
Raises (models `AttributeError`) when the receiver of a `.get` is not a
dict; a missing outer key defaults to `{}`, so the inner lookup then
yields `None`. -/
def getChain (j : Json) (k1 k2 : String) : Except String (Option Json) :=
  match j with
  | .obj kvs =>
    match jlookup kvs k1 with
    | none => .ok none
    | some (.obj kvs2) => .ok (jlookup kvs2 k2)
    | some _ => .error "AttributeError: object has no attribute get"
  | _ => .error "AttributeError: object has no attribute get"

/-- Python `credentials.get(key)` (default `None`, rendered `Json.null`).
Raises when the receiver is not a dict. -/
def pyGet (j : Json) (key : String) : Except String Json :=
  match j with
  | .obj kvs =>
    match jlookup kvs key with
    | none => .ok .null
    | some v => .ok v
  | _ => .error "AttributeError: object has no attribute get"

/-- Python `credentials.get(key, {})` (default `{}`). -/
def pyGetD (j : Json) (key : String) : Except String Json :=
  match j with
  | .obj kvs =>
    match jlookup kvs key with
    | none => .ok (.obj [])
    | some v => .ok v
  | _ => .error "AttributeError: object has no attribute get"

/-- Exceptions that cross function boundaries in the Python source:
`ValueError` (configuration / credential / unsupported-method errors,
and pydantic `ValidationError`, which subclasses `ValueError`), and
`requests.exceptions.RequestException` carrying `e.response.status_code`
when a response exists. -/
inductive PyError where
  | valueError (msg : String) : PyError
  | requestException (msg : String) (statusCode : Option Nat) : PyError
  | typeError (msg : String) : PyError
deriving Repr, DecidableEq

/-- Python `str(e)` on a caught exception. -/
def PyError.pyStr : PyError → String
  | .valueError m => m
  | .requestException m _ => m
  | .typeError m => m

/-- Result of one HTTP exchange as seen by the caller of `requests.*`:
either the library raised before producing a response (connection error,
timeout), or a response with a status code and an already-parsed JSON
body arrived. -/
inductive HttpResult where
  | exc (msg : String) : HttpResult
  | resp (status : Nat) (body : Json) : HttpResult

/-- One blocking network round trip, as recorded in execution traces:
a credential-broker call, or a target-API call with its method, URL and
optional JSON body. -/
inductive NetEvent where
  | brokerCall : NetEvent
  | apiCall (method url : String) (body : Option Json) : NetEvent

/-- The four `NANGO_*` environment variables (`None` when unset). -/
structure Env where
  connectionId : Option String
  integrationId : Option String
  baseUrl : Option String
  secretKey : Option String

/-- Python truthiness of `os.environ.get(...)` (unset or empty is falsy). -/
def etruthy : Option String → Bool
  | none => false
  | some s => s ≠ ""

/-- The external world a single tool invocation runs against: the
process environment, the broker's response (the broker endpoint and
parameters are fixed by the environment, so one response value), and the
target API as a function of upper-cased method, URL and body. -/
structure World where
  env : Env
  broker : HttpResult
  api : String → String → Option Json → HttpResult

/-- A Python computation's outcome (normal return or raised exception)
together with the network round trips it performed, in order. -/
abbrev PyRes (α : Type) := Except PyError α × List NetEvent

/-- Message of the `HTTPError` that `response.raise_for_status()` raises
on a 4xx/5xx status.  The exact `requests` text also includes the reason
phrase; this rendering stands in for `str(e)`. -/
def raiseForStatusMsg (status : Nat) (url : String) : String :=
  if status < 500 then
    s!"{status} Client Error for url: {url}"
  else
    s!"{status} Server Error for url: {url}"

/-- `requests` raises `HTTPError` from `raise_for_status()` exactly for
status codes in [400, 600). -/
def isErrorStatus (status : Nat) : Bool :=
  400 ≤ status && status < 600

/-- `get_connection_credentials` (main.py:42-62): checks the four
environment variables, then performs one GET against the broker,
raises for bad statuses, and returns the parsed JSON body. -/
def get_connection_credentials (w : World) : PyRes Json :=
  if !(etruthy w.env.connectionId && etruthy w.env.integrationId
       && etruthy w.env.baseUrl && etruthy w.env.secretKey) then
    (.error (.valueError "Missing required Nango environment variables"), [])
  else
    match w.broker with
    | .exc msg => (.error (.requestException msg none), [.brokerCall])
    | .resp status body =>
      if isErrorStatus status then
        (.error (.requestException (raiseForStatusMsg status "broker") (some status)),
         [.brokerCall])
      else
        (.ok body, [.brokerCall])

/-- Extraction of `credentials.get("credentials", {}).get("apiKey")`
with the falsy check of main.py:26-28. -/
def extract_api_key (credentials : Json) : Except String Json :=
  match getChain credentials "credentials" "apiKey" with
  | .error m => .error m
  | .ok v =>
    if otruthy v then .ok (v.getD .null)
    else .error "API key not found in Nango credentials"

/-- Extraction of `credentials.get("connection_config", {}).get("hostname")`
with the falsy check of main.py:31-33. -/
def extract_hostname (credentials : Json) : Except String Json :=
  match getChain credentials "connection_config" "hostname" with
  | .error m => .error m
  | .ok v =>
    if otruthy v then .ok (v.getD .null)
    else .error "Hostname not found in Nango connection config"

/-- `get_activecampaign_config` (main.py:20-40): resolves credentials
through the broker, extracts `apiKey` and `hostname`, builds the API
base URL.  Its `except Exception` clause rewraps every failure —
including the inner `raise ValueError`s — into one `ValueError`. -/
def get_activecampaign_config (w : World) : PyRes (String × Json) :=
  match get_connection_credentials w with
  | (.error e, t) =>
    (.error (.valueError ("Failed to get ActiveCampaign config from Nango: " ++ e.pyStr)), t)
  | (.ok credentials, t) =>
    match extract_api_key credentials with
    | .error m =>
      (.error (.valueError ("Failed to get ActiveCampaign config from Nango: " ++ m)), t)
    | .ok apiKey =>
      match extract_hostname credentials with
      | .error m =>
        (.error (.valueError ("Failed to get ActiveCampaign config from Nango: " ++ m)), t)
      | .ok hostname =>
        (.ok ("https://" ++ hostname.pyStr, apiKey), t)

/-- The header dict built by `get_headers` (main.py:64-72). -/
structure Headers where
  apiToken : Json
  contentType : String
  accept : String

/-- `get_headers` (main.py:64-72): calls `get_activecampaign_config`
(one more broker round trip) and builds the three fixed headers. -/
def get_headers (w : World) : PyRes Headers :=
  match get_activecampaign_config w with
  | (.error e, t) => (.error e, t)
  | (.ok (_, apiKey), t) =>
    (.ok { apiToken := apiKey
           contentType := "application/json"
           accept := "application/json" }, t)

/-- Python `api_url.rstrip('/')`. -/
def rstripSlash (s : String) : String :=
  String.mk ((s.toList.reverse.dropWhile (· = '/')).reverse)

/-- ASCII upper-casing of one character, as Python's `str.upper()` does
on the ASCII method names this program handles. -/
def pyUpperChar (c : Char) : Char :=
  if 'a' ≤ c ∧ c ≤ 'z' then Char.ofNat (c.toNat - 32) else c

/-- Python `method.upper()`. -/
def pyUpper (s : String) : String :=
  String.mk (s.toList.map pyUpperChar)

/-- The `try`/`except requests.exceptions.RequestException` body of
`make_request` (main.py:80-95) applied to one HTTP exchange: a transport
exception becomes `{"error": str(e), "status_code": None}` (no response
object, so `getattr(e.response, 'status_code', None)` is `None`), a
4xx/5xx response becomes `{"error": str(e), "status_code": <code>}` via
`raise_for_status()`, and any other response yields its parsed body. -/
def apiResultValue (r : HttpResult) (url : String) : Except PyError Json :=
  match r with
  | .exc msg => .ok (.obj [("error", .str msg), ("status_code", .null)])
  | .resp status rbody =>
    if isErrorStatus status then
      .ok (.obj [("error", .str (raiseForStatusMsg status url)),
                 ("status_code", .num status)])
    else
      .ok rbody

/-- `make_request` (main.py:74-95): resolves the base URL (broker round
trip), resolves headers (a second broker round trip), dispatches on
`method.upper()`, and converts any `RequestException` — raised by the
transport or by `raise_for_status()` — into an error value via
`apiResultValue`.  The `raise ValueError` for an unsupported method is
not a `RequestException`, so it propagates. -/
def make_request (w : World) (method : String) (endpoint : String)
    (data : Option Json := none) : PyRes Json :=
  match get_activecampaign_config w with
  | (.error e, t1) => (.error e, t1)
  | (.ok (api_url, _), t1) =>
    let url := rstripSlash api_url ++ endpoint
    match get_headers w with
    | (.error e, t2) => (.error e, t1 ++ t2)
    | (.ok _headers, t2) =>
      let mU := pyUpper method
      if mU = "GET" || mU = "POST" || mU = "PUT" || mU = "DELETE" then
        let body : Option Json := if mU = "POST" || mU = "PUT" then data else none
        (apiResultValue (w.api mU url body) url, t1 ++ t2 ++ [.apiCall mU url body])
      else
        (.error (.valueError ("Unsupported HTTP method: " ++ method)), t1 ++ t2)

/-- Number of credential-broker round trips in a trace. -/
def brokerCalls (t : List NetEvent) : Nat :=
  t.countP (fun e => match e with | .brokerCall => true | _ => false)

/-- Number of target-API round trips in a trace. -/
def apiCalls (t : List NetEvent) : Nat :=
  t.countP (fun e => match e with | .apiCall _ _ _ => true | _ => false)

/-! ### Typed response models (pydantic `BaseModel`s, main.py:97-260)

Every field is `Optional`; construction via `Model(**result)` ignores
unknown keys (pydantic default `extra="ignore"`), treats a missing or
`null` key as unset, and raises a `ValidationError` (a `ValueError`
subclass) on a type mismatch. `**result` itself raises a `TypeError`
when `result` is not a dict. -/

/-- Validate one `Optional[str]` pydantic field. -/
def vOptStr (kvs : List (String × Json)) (key : String) : Except PyError (Option String) :=
  match jlookup kvs key with
  | none => .ok none
  | some .null => .ok none
  | some (.str s) => .ok (some s)
  | some _ => .error (.valueError ("validation error for field " ++ key))

/-- `DealData` (main.py:151-157). -/
structure DealData where
  title : Option String := none
  value : Option String := none
  currency : Option String := none
  status : Option String := none
  id : Option String := none
deriving Repr, DecidableEq

def DealData.validate (j : Json) : Except PyError DealData :=
  match j with
  | .obj kvs => do
    let title ← vOptStr kvs "title"
    let value ← vOptStr kvs "value"
    let currency ← vOptStr kvs "currency"
    let status ← vOptStr kvs "status"
    let id ← vOptStr kvs "id"
    pure { title, value, currency, status, id }
  | .null => .ok {}
  | _ => .error (.valueError "validation error: DealData expects an object")

/-- Validate an `Optional[List[...]]` pydantic field. -/
def vOptList (f : Json → Except PyError α) (kvs : List (String × Json))
    (key : String) : Except PyError (Option (List α)) :=
  match jlookup kvs key with
  | none => .ok none
  | some .null => .ok none
  | some (.arr xs) => do
    let ys ← xs.mapM f
    pure (some ys)
  | some _ => .error (.valueError ("validation error for field " ++ key))

/-- Validate an `Optional[Model]` pydantic field. -/
def vOptModel (f : Json → Except PyError α) (kvs : List (String × Json))
    (key : String) : Except PyError (Option α) :=
  match jlookup kvs key with
  | none => .ok none
  | some .null => .ok none
  | some j => do
    let y ← f j
    pure (some y)

/-- `DealResponse` (main.py:159-163). -/
structure DealResponse where
  deal : Option DealData := none
  deals : Option (List DealData) := none
  error : Option String := none
deriving Repr, DecidableEq

/-- `DealResponse(**result)`. -/
def DealResponse.validate (result : Json) : Except PyError DealResponse :=
  match result with
  | .obj kvs => do
    let deal ← vOptModel DealData.validate kvs "deal"
    let deals ← vOptList DealData.validate kvs "deals"
    let error ← vOptStr kvs "error"
    pure { deal, deals, error }
  | _ => .error (.typeError "argument after ** must be a mapping")

/-- `MessageData` (main.py:196-202). -/
structure MessageData where
  name : Option String := none
  subject : Option String := none
  fromname : Option String := none
  fromemail : Option String := none
  id : Option String := none
deriving Repr, DecidableEq

def MessageData.validate (j : Json) : Except PyError MessageData :=
  match j with
  | .obj kvs => do
    let name ← vOptStr kvs "name"
    let subject ← vOptStr kvs "subject"
    let fromname ← vOptStr kvs "fromname"
    let fromemail ← vOptStr kvs "fromemail"
    let id ← vOptStr kvs "id"
    pure { name, subject, fromname, fromemail, id }
  | .null => .ok {}
  | _ => .error (.valueError "validation error: MessageData expects an object")

/-- `MessageResponse` (main.py:204-208). -/
structure MessageResponse where
  message : Option MessageData := none
  messages : Option (List MessageData) := none
  error : Option String := none
deriving Repr, DecidableEq

/-- `MessageResponse(**result)`. -/
def MessageResponse.validate (result : Json) : Except PyError MessageResponse :=
  match result with
  | .obj kvs => do
    let message ← vOptModel MessageData.validate kvs "message"
    let messages ← vOptList MessageData.validate kvs "messages"
    let error ← vOptStr kvs "error"
    pure { message, messages, error }
  | _ => .error (.typeError "argument after ** must be a mapping")

/-- `FieldValueData` (main.py:236-241). -/
structure FieldValueData where
  contact : Option String := none
  field : Option String := none
  value : Option String := none
  id : Option String := none
deriving Repr, DecidableEq

def FieldValueData.validate (j : Json) : Except PyError FieldValueData :=
  match j with
  | .obj kvs => do
    let contact ← vOptStr kvs "contact"
    let field ← vOptStr kvs "field"
    let value ← vOptStr kvs "value"
    let id ← vOptStr kvs "id"
    pure { contact, field, value, id }
  | .null => .ok {}
  | _ => .error (.valueError "validation error: FieldValueData expects an object")

/-- `FieldValueResponse` (main.py:243-247). -/
structure FieldValueResponse where
  fieldValue : Option FieldValueData := none
  fieldValues : Option (List FieldValueData) := none
  error : Option String := none
deriving Repr, DecidableEq

/-- `FieldValueResponse(**result)`. -/
def FieldValueResponse.validate (result : Json) : Except PyError FieldValueResponse :=
  match result with
  | .obj kvs => do
    let fieldValue ← vOptModel FieldValueData.validate kvs "fieldValue"
    let fieldValues ← vOptList FieldValueData.validate kvs "fieldValues"
    let error ← vOptStr kvs "error"
    pure { fieldValue, fieldValues, error }
  | _ => .error (.typeError "argument after ** must be a mapping")

/-! ### Tools (main.py:262-460) -/

/-- `get_deal` (main.py:338-343): one GET, then `DealResponse(**result)`.
There is no `try`/`except` at this tool boundary: raised errors
propagate. -/
def get_deal (w : World) (deal_id : String) : PyRes DealResponse :=
  match make_request w "GET" ("/api/3/deals/" ++ deal_id) with
  | (.error e, t) => (.error e, t)
  | (.ok result, t) =>
    match DealResponse.validate result with
    | .error e => (.error e, t)
    | .ok resp => (.ok resp, t)

/-- `list_custom_field_values` (main.py:287-292): the `field_id`
parameter is declared but never used; the endpoint is the constant
`/api/3/fieldValues` and no body is sent. -/
def list_custom_field_values (w : World) (field_id : String) : PyRes FieldValueResponse :=
  let _ := field_id
  match make_request w "GET" "/api/3/fieldValues" with
  | (.error e, t) => (.error e, t)
  | (.ok result, t) =>
    match FieldValueResponse.validate result with
    | .error e => (.error e, t)
    | .ok resp => (.ok resp, t)

/-- The body built by `update_message` (main.py:398-407): a `"message"`
object holding exactly the non-`None` optional parameters, inserted in
source order. -/
def update_message_body (name subject fromname fromemail : Option String) : Json :=
  .obj [("message", .obj (
    (match name with | some v => [("name", Json.str v)] | none => []) ++
    (match subject with | some v => [("subject", Json.str v)] | none => []) ++
    (match fromname with | some v => [("fromname", Json.str v)] | none => []) ++
    (match fromemail with | some v => [("fromemail", Json.str v)] | none => [])))]

/-- `update_message` (main.py:393-410): builds the partial body, issues
one PUT, maps the result through `MessageResponse`. -/
def update_message (w : World) (message_id : String)
    (name : Option String := none) (subject : Option String := none)
    (fromname : Option String := none) (fromemail : Option String := none) :
    PyRes MessageResponse :=
  let data := update_message_body name subject fromname fromemail
  match make_request w "PUT" ("/api/3/messages/" ++ message_id) (some data) with
  | (.error e, t) => (.error e, t)
  | (.ok result, t) =>
    match MessageResponse.validate result with
    | .error e => (.error e, t)
    | .ok resp => (.ok resp, t)

/-- Python `"error" in result` for an arbitrary JSON `result`: key test
on dicts, membership on lists, substring test on strings, `TypeError`
otherwise. -/
def pyInError : Json → Except PyError Bool
  | .obj kvs => .ok (jlookup kvs "error").isSome
  | .arr xs => .ok (xs.any (fun x => match x with | .str s => s = "error" | _ => false))
  | .str s => .ok (decide ("error".toList <:+: s.toList))
  | _ => .error (.typeError "argument of type is not iterable")

/-- Python `result["error"]`: key access on dicts, `TypeError` on other
values (string keys never index lists or strings). -/
def pyIndexError : Json → Except PyError Json
  | .obj kvs =>
    match jlookup kvs "error" with
    | some v => .ok v
    | none => .error (.typeError "KeyError: error")
  | _ => .error (.typeError "indices must be integers")

/-- `health_check` (main.py:420-440): broker probe, then a GET on
`/api/3/users`; every raised exception is caught by `except Exception`
and rendered as `{"status": "error", "message": str(e)}`. -/
def health_check (w : World) : Json × List NetEvent :=
  match get_connection_credentials w with
  | (.error e, t1) => (.obj [("status", .str "error"), ("message", .str e.pyStr)], t1)
  | (.ok credentials, t1) =>
    match make_request w "GET" "/api/3/users" with
    | (.error e, t2) => (.obj [("status", .str "error"), ("message", .str e.pyStr)], t1 ++ t2)
    | (.ok result, t2) =>
      match pyInError result with
      | .error e => (.obj [("status", .str "error"), ("message", .str e.pyStr)], t1 ++ t2)
      | .ok true =>
        match pyIndexError result with
        | .error e => (.obj [("status", .str "error"), ("message", .str e.pyStr)], t1 ++ t2)
        | .ok v => (.obj [("status", .str "error"), ("message", v)], t1 ++ t2)
      | .ok false =>
        match pyGet credentials "connection_id" with
        | .error m => (.obj [("status", .str "error"), ("message", .str m)], t1 ++ t2)
        | .ok cid =>
          match getChain credentials "connection_config" "hostname" with
          | .error m => (.obj [("status", .str "error"), ("message", .str m)], t1 ++ t2)
          | .ok host =>
            match pyGet credentials "provider" with
            | .error m => (.obj [("status", .str "error"), ("message", .str m)], t1 ++ t2)
            | .ok prov =>
              (.obj [("status", .str "ok"),
                     ("message", .str "API connection successful via Nango"),
                     ("connection_id", cid),
                     ("hostname", host.getD .null),
                     ("provider", prov)], t1 ++ t2)

/-- The metadata dict built by `get_nango_connection_info`
(main.py:447-458), with each `.get` chain able to raise. -/
def nango_info_dict (credentials : Json) : Except String Json :=
  match pyGet credentials "connection_id" with
  | .error e => .error e
  | .ok cid =>
  match pyGet credentials "provider" with
  | .error e => .error e
  | .ok prov =>
  match pyGet credentials "provider_config_key" with
  | .error e => .error e
  | .ok pck =>
  match getChain credentials "connection_config" "hostname" with
  | .error e => .error e
  | .ok host =>
  match pyGet credentials "created_at" with
  | .error e => .error e
  | .ok created =>
  match pyGet credentials "last_fetched_at" with
  | .error e => .error e
  | .ok fetched =>
  match pyGetD credentials "end_user" with
  | .error e => .error e
  | .ok endUser =>
  match getChain credentials "credentials" "apiKey" with
  | .error e => .error e
  | .ok hasKey =>
  match getChain credentials "credentials" "type" with
  | .error e => .error e
  | .ok ctype =>
    .ok (.obj [("status", .str "success"), ("connection_id", cid), ("provider", prov),
               ("provider_config_key", pck), ("hostname", host.getD .null),
               ("created_at", created), ("last_fetched_at", fetched),
               ("end_user", endUser), ("has_api_key", .bool (otruthy hasKey)),
               ("credential_type", ctype.getD Json.null)])

/-- `get_nango_connection_info` (main.py:442-460): broker metadata only,
no target-API call; `except Exception` renders failures as
`{"status": "error", "message": str(e)}`. -/
def get_nango_connection_info (w : World) : Json × List NetEvent :=
  match get_connection_credentials w with
  | (.error e, t) => (.obj [("status", .str "error"), ("message", .str e.pyStr)], t)
  | (.ok credentials, t) =>
    match nango_info_dict credentials with
    | .error m => (.obj [("status", .str "error"), ("message", .str m)], t)
    | .ok d => (d, t)

/-! ### Concrete worlds used to evaluate the embedding -/

/-- All four environment variables set. -/
def envGood : Env :=
  ⟨some "conn-1", some "activecampaign", some "https://nango.example", some "sk"⟩

/-- Entries of a complete broker response body. -/
def brokerBodyGoodKvs : List (String × Json) :=
  [("connection_id", .str "conn-1"), ("provider", .str "activecampaign"),
   ("credentials", .obj [("apiKey", .str "k-123"), ("type", .str "API_KEY")]),
   ("connection_config", .obj [("hostname", .str "acme.api-us1.com")])]

/-- A complete broker response body. -/
def brokerBodyGood : Json := .obj brokerBodyGoodKvs

/-- Healthy world: broker succeeds, every API call answers 200 `{}`. -/
def wGood : World :=
  ⟨envGood, .resp 200 brokerBodyGood, fun _ _ _ => .resp 200 (.obj [])⟩

/-- World with `NANGO_CONNECTION_ID` unset. -/
def wNoEnv : World :=
  ⟨⟨none, some "activecampaign", some "https://nango.example", some "sk"⟩,
   .resp 200 brokerBodyGood, fun _ _ _ => .resp 200 (.obj [])⟩

/-- Broker response body with no `credentials.apiKey`. -/
def brokerBodyNoKey : Json :=
  .obj [("connection_id", .str "conn-1"),
        ("credentials", .obj [("type", .str "API_KEY")]),
        ("connection_config", .obj [("hostname", .str "acme.api-us1.com")])]

/-- World whose broker response lacks the API key. -/
def wNoKey : World :=
  ⟨envGood, .resp 200 brokerBodyNoKey, fun _ _ _ => .resp 200 (.obj [])⟩

/-- World whose API answers 404 with an empty body on every call. -/
def w404 : World :=
  ⟨envGood, .resp 200 brokerBodyGood, fun _ _ _ => .resp 404 (.obj [])⟩

/-- World whose API answers status 300 with an empty object body on
every call — a non-2xx status that `raise_for_status()` does not raise
on. -/
def w300 : World :=
  ⟨envGood, .resp 200 brokerBodyGood, fun _ _ _ => .resp 300 (.obj [])⟩

/-! ### Structural lemmas about traces -/

/-- The `"status"` entry of a result dictionary. -/
def statusField (j : Json) : Option Json :=
  match j with
  | .obj kvs => jlookup kvs "status"
  | _ => none

/-- The `"message"` entry of a result dictionary. -/
def messageField (j : Json) : Option Json :=
  match j with
  | .obj kvs => jlookup kvs "message"
  | _ => none


theorem creds_cases (w : World) :
    (∃ e, get_connection_credentials w = (.error e, [])) ∨
    (∃ e, get_connection_credentials w = (.error e, [.brokerCall])) ∨
    (∃ b, get_connection_credentials w = (.ok b, [.brokerCall])) := by
  unfold get_connection_credentials
  split
  · exact Or.inl ⟨_, rfl⟩
  · split
    · exact Or.inr (Or.inl ⟨_, rfl⟩)
    · split
      · exact Or.inr (Or.inl ⟨_, rfl⟩)
      · exact Or.inr (Or.inr ⟨_, rfl⟩)

theorem creds_of_ok (w : World) (b : Json)
    (h : (get_connection_credentials w).1 = .ok b) :
    get_connection_credentials w = (.ok b, [.brokerCall]) := by
  rcases creds_cases w with ⟨e, he⟩ | ⟨e, he⟩ | ⟨b', he⟩ <;> rw [he] at h ⊢ <;>
    simp_all

theorem config_cases (w : World) :
    (∃ s t, get_activecampaign_config w = (.error (.valueError s), t) ∧
      (t = [] ∨ t = [.brokerCall])) ∨
    (∃ cfg, get_activecampaign_config w = (.ok cfg, [.brokerCall])) := by
  unfold get_activecampaign_config
  rcases creds_cases w with ⟨e, he⟩ | ⟨e, he⟩ | ⟨b, he⟩ <;> rw [he] <;> dsimp only
  · exact Or.inl ⟨_, _, rfl, Or.inl rfl⟩
  · exact Or.inl ⟨_, _, rfl, Or.inr rfl⟩
  · cases hk : extract_api_key b <;> dsimp only
    · exact Or.inl ⟨_, _, rfl, Or.inr rfl⟩
    · cases hh : extract_hostname b <;> dsimp only
      · exact Or.inl ⟨_, _, rfl, Or.inr rfl⟩
      · exact Or.inr ⟨_, rfl⟩

theorem config_of_ok (w : World) (cfg : String × Json)
    (h : (get_activecampaign_config w).1 = .ok cfg) :
    get_activecampaign_config w = (.ok cfg, [.brokerCall]) := by
  rcases config_cases w with ⟨s, t, he, _⟩ | ⟨cfg', he⟩ <;> rw [he] at h ⊢ <;>
    simp_all

theorem config_error_is_valueError (w : World) (e : PyError) (t : List NetEvent)
    (h : get_activecampaign_config w = (.error e, t)) :
    (∃ s, e = .valueError s) ∧ (t = [] ∨ t = [.brokerCall]) := by
  rcases config_cases w with ⟨s, t', he, ht⟩ | ⟨cfg, he⟩ <;> rw [he] at h
  · rw [Prod.mk.injEq] at h
    obtain ⟨h1, h2⟩ := h
    cases h1
    exact ⟨⟨s, rfl⟩, h2 ▸ ht⟩
  · simp at h

theorem headers_of_config_ok (w : World) (cfg : String × Json) (t : List NetEvent)
    (h : get_activecampaign_config w = (.ok cfg, t)) :
    get_headers w = (.ok { apiToken := cfg.2
                           contentType := "application/json"
                           accept := "application/json" }, t) := by
  unfold get_headers
  rw [h]

theorem headers_of_config_error (w : World) (e : PyError) (t : List NetEvent)
    (h : get_activecampaign_config w = (.error e, t)) :
    get_headers w = (.error e, t) := by
  unfold get_headers
  rw [h]

theorem make_request_of_config_error (w : World) (e : PyError) (t : List NetEvent)
    (h : get_activecampaign_config w = (.error e, t))
    (m ep : String) (d : Option Json) :
    make_request w m ep d = (.error e, t) := by
  unfold make_request
  rw [h]

/-- Executor behaviour once configuration resolved: the supported-method
branch performs exactly one API round trip after the two broker round
trips. -/
theorem make_request_of_config_ok (w : World) (cfg : String × Json)
    (h : (get_activecampaign_config w).1 = .ok cfg)
    (m ep : String) (d : Option Json)
    (hm : (pyUpper m = "GET" || pyUpper m = "POST"
           || pyUpper m = "PUT" || pyUpper m = "DELETE") = true) :
    make_request w m ep d =
      (apiResultValue
         (w.api (pyUpper m) (rstripSlash cfg.1 ++ ep)
           (if pyUpper m = "POST" || pyUpper m = "PUT" then d else none))
         (rstripSlash cfg.1 ++ ep),
       [.brokerCall, .brokerCall,
        .apiCall (pyUpper m) (rstripSlash cfg.1 ++ ep)
          (if pyUpper m = "POST" || pyUpper m = "PUT" then d else none)]) := by
  have hc := config_of_ok w cfg h
  unfold make_request
  rw [hc, headers_of_config_ok w cfg _ hc]
  simp only [hm, if_true]
  rfl

/-- Executor behaviour for an unsupported method: the `ValueError`
propagates after the two broker round trips, with no API call. -/
theorem make_request_of_unsupported (w : World) (cfg : String × Json)
    (h : (get_activecampaign_config w).1 = .ok cfg)
    (m ep : String) (d : Option Json)
    (hm : (pyUpper m = "GET" || pyUpper m = "POST"
           || pyUpper m = "PUT" || pyUpper m = "DELETE") = false) :
    make_request w m ep d =
      (.error (.valueError ("Unsupported HTTP method: " ++ m)),
       [.brokerCall, .brokerCall]) := by
  have hc := config_of_ok w cfg h
  unfold make_request
  rw [hc, headers_of_config_ok w cfg _ hc]
  simp only [hm]
  rfl

theorem pyGet_obj (kvs : List (String × Json)) (k : String) :
    pyGet (.obj kvs) k = .ok ((jlookup kvs k).getD .null) := by
  unfold pyGet
  dsimp only
  cases jlookup kvs k <;> rfl

theorem apiResultValue_ok (r : HttpResult) (url : String) :
    ∃ j, apiResultValue r url = .ok j := by
  unfold apiResultValue
  cases r
  · exact ⟨_, rfl⟩
  · dsimp only
    split <;> exact ⟨_, rfl⟩

/-- `make_request` specialised to a literal GET with no body. -/
theorem make_request_get (w : World) (cfg : String × Json)
    (h : (get_activecampaign_config w).1 = .ok cfg) (ep : String) :
    make_request w "GET" ep none =
      (apiResultValue (w.api "GET" (rstripSlash cfg.1 ++ ep) none)
         (rstripSlash cfg.1 ++ ep),
       [.brokerCall, .brokerCall,
        .apiCall "GET" (rstripSlash cfg.1 ++ ep) none]) :=
  make_request_of_config_ok w cfg h "GET" ep none (by decide)

/-- `make_request` specialised to a literal PUT carrying a body. -/
theorem make_request_put (w : World) (cfg : String × Json)
    (h : (get_activecampaign_config w).1 = .ok cfg) (ep : String) (d : Option Json) :
    make_request w "PUT" ep d =
      (apiResultValue (w.api "PUT" (rstripSlash cfg.1 ++ ep) d)
         (rstripSlash cfg.1 ++ ep),
       [.brokerCall, .brokerCall,
        .apiCall "PUT" (rstripSlash cfg.1 ++ ep) d]) :=
  make_request_of_config_ok w cfg h "PUT" ep d (by decide)

/-- `update_message` always sends its PUT once configuration resolves,
whatever the API answers. -/
theorem update_message_sends (w : World) (id : String) (n s f g : Option String)
    (cfg : String × Json) (h : (get_activecampaign_config w).1 = .ok cfg) :
    (update_message w id n s f g).2 =
      [.brokerCall, .brokerCall,
       .apiCall "PUT" (rstripSlash cfg.1 ++ ("/api/3/messages/" ++ id))
         (some (update_message_body n s f g))] := by
  unfold update_message
  dsimp only
  rw [make_request_put w cfg h ("/api/3/messages/" ++ id)
       (some (update_message_body n s f g))]
  obtain ⟨j, hj⟩ := apiResultValue_ok
    (w.api "PUT" (rstripSlash cfg.1 ++ ("/api/3/messages/" ++ id))
      (some (update_message_body n s f g)))
    (rstripSlash cfg.1 ++ ("/api/3/messages/" ++ id))
  rw [hj]
  dsimp only
  cases MessageResponse.validate j <;> rfl

/-! ### Claims -/

/-- Claim C1, counterexample: at a healthy world, one `get_deal`
invocation performs three network round trips — two credential-broker
calls (the resolver runs once in `make_request` for the base URL and
once more inside `get_headers`) plus one API call — refuting "at most
two round trips" and "resolver invoked exactly once per executor
request". -/
theorem c1_counterexample :
    brokerCalls (get_deal wGood "1").2 = 2 ∧
    apiCalls (get_deal wGood "1").2 = 1 ∧
    (get_deal wGood "1").2.length = 3 :=
  ⟨rfl, rfl, rfl⟩

/-- Claim C1 (amended): every executor request performs at most three
blocking round trips — at most two credential-broker calls and at most
one target-API call — and whenever configuration resolution succeeds the
credential resolver is invoked exactly twice (not once). -/
theorem c1_round_trips (w : World) (m ep : String) (d : Option Json) :
    brokerCalls (make_request w m ep d).2 ≤ 2 ∧
    apiCalls (make_request w m ep d).2 ≤ 1 ∧
    ∀ cfg, (get_activecampaign_config w).1 = .ok cfg →
      brokerCalls (make_request w m ep d).2 = 2 := by
  rcases config_cases w with ⟨s, t, he, ht⟩ | ⟨cfg, he⟩
  · rw [make_request_of_config_error w _ _ he m ep d]
    refine ⟨?_, ?_, ?_⟩
    · rcases ht with h | h <;> rw [h] <;> simp [brokerCalls]
    · rcases ht with h | h <;> rw [h] <;> simp [apiCalls]
    · intro cfg hcfg
      rw [he] at hcfg
      simp at hcfg
  · have h1 : (get_activecampaign_config w).1 = .ok cfg := by rw [he]
    by_cases hm : (pyUpper m = "GET" || pyUpper m = "POST"
                   || pyUpper m = "PUT" || pyUpper m = "DELETE") = true
    · rw [make_request_of_config_ok w cfg h1 m ep d hm]
      exact ⟨by simp [brokerCalls], by simp [apiCalls], fun _ _ => by simp [brokerCalls]⟩
    · rw [make_request_of_unsupported w cfg h1 m ep d (by simpa using hm)]
      exact ⟨by simp [brokerCalls], by simp [apiCalls], fun _ _ => by simp [brokerCalls]⟩

/-- Claim C1 witness: the amended bounds evaluated at the healthy world
for a GET on `/api/3/users`. -/
theorem c1_round_trips_witness :
    brokerCalls (make_request wGood "GET" "/api/3/users" none).2 ≤ 2 ∧
    apiCalls (make_request wGood "GET" "/api/3/users" none).2 ≤ 1 ∧
    brokerCalls (make_request wGood "GET" "/api/3/users" none).2 = 2 :=
  ⟨(c1_round_trips wGood "GET" "/api/3/users" none).1,
   (c1_round_trips wGood "GET" "/api/3/users" none).2.1,
   (c1_round_trips wGood "GET" "/api/3/users" none).2.2
     ("https://acme.api-us1.com", .str "k-123") rfl⟩

/-- Claim C3, counterexample: with the method `"PATCH"` the executor
does fail with the configuration `ValueError`, but only after two
credential-broker network calls — refuting "makes no network call of any
kind (neither to the broker nor to the target API)". -/
theorem c3_counterexample :
    (make_request wGood "PATCH" "/api/3/deals/1" none).2 =
      [.brokerCall, .brokerCall] ∧
    brokerCalls (make_request wGood "PATCH" "/api/3/deals/1" none).2 = 2 ∧
    (make_request wGood "PATCH" "/api/3/deals/1" none).1 =
      .error (.valueError "Unsupported HTTP method: PATCH") :=
  ⟨rfl, rfl, rfl⟩

/-- Claim C3 (amended): for a method whose upper-casing is none of
GET/POST/PUT/DELETE, the executor raises a `ValueError` and sends
nothing to the target API — the exact "Unsupported HTTP method" error
whenever configuration resolution succeeds — but the credential broker
may still have been called. -/
theorem c3_unsupported_method (w : World) (m ep : String) (d : Option Json)
    (hm : (pyUpper m = "GET" || pyUpper m = "POST"
           || pyUpper m = "PUT" || pyUpper m = "DELETE") = false) :
    apiCalls (make_request w m ep d).2 = 0 ∧
    (∃ s, (make_request w m ep d).1 = .error (.valueError s)) ∧
    (∀ cfg, (get_activecampaign_config w).1 = .ok cfg →
      (make_request w m ep d).1 =
        .error (.valueError ("Unsupported HTTP method: " ++ m))) := by
  rcases config_cases w with ⟨s, t, he, ht⟩ | ⟨cfg, he⟩
  · rw [make_request_of_config_error w _ _ he m ep d]
    refine ⟨?_, ⟨s, rfl⟩, ?_⟩
    · rcases ht with h | h <;> rw [h] <;> rfl
    · intro cfg hcfg
      rw [he] at hcfg
      simp at hcfg
  · have h1 : (get_activecampaign_config w).1 = .ok cfg := by rw [he]
    rw [make_request_of_unsupported w cfg h1 m ep d hm]
    exact ⟨rfl, ⟨_, rfl⟩, fun _ _ => rfl⟩

/-- Claim C3 witness: the amended statement evaluated at the healthy
world with method `"PATCH"`. -/
theorem c3_unsupported_method_witness :
    apiCalls (make_request wGood "PATCH" "/x" none).2 = 0 ∧
    (∃ s, (make_request wGood "PATCH" "/x" none).1 = .error (.valueError s)) ∧
    (make_request wGood "PATCH" "/x" none).1 =
      .error (.valueError ("Unsupported HTTP method: " ++ "PATCH")) :=
  ⟨(c3_unsupported_method wGood "PATCH" "/x" none (by decide)).1,
   (c3_unsupported_method wGood "PATCH" "/x" none (by decide)).2.1,
   (c3_unsupported_method wGood "PATCH" "/x" none (by decide)).2.2
     ("https://acme.api-us1.com", .str "k-123") rfl⟩

/-- Claim C2, counterexample: with a missing environment variable the
configuration `ValueError` propagates out of `get_deal` as a raised
fault — the tool has no `try`/`except` boundary and returns no
`{status: "error"}` dictionary. -/
theorem c2_counterexample :
    (get_deal wNoEnv "1").1 =
      .error (.valueError
        "Failed to get ActiveCampaign config from Nango: Missing required Nango environment variables") :=
  rfl

/-- Claim C2 (amended): a Configuration/Credential error raised while
resolving configuration is converted into a `{status: "error",
message: ...}` dictionary only at the diagnostic boundaries
(`health_check`, `get_nango_connection_info`); ordinary tools such as
`get_deal` propagate it as a raised fault. -/
theorem c2_config_error_boundaries (w : World) (d : String) (e : PyError)
    (h : (get_activecampaign_config w).1 = .error e) :
    (get_deal w d).1 = .error e ∧
    statusField (health_check w).1 = some (.str "error") ∧
    (messageField (health_check w).1).isSome = true := by
  have he : get_activecampaign_config w =
      (.error e, (get_activecampaign_config w).2) := by
    rw [← h]
  have hmr := make_request_of_config_error w e _ he "GET" ("/api/3/deals/" ++ d) none
  have hmu := make_request_of_config_error w e _ he "GET" "/api/3/users" none
  refine ⟨?_, ?_⟩
  · unfold get_deal
    rw [hmr]
  · rcases creds_cases w with ⟨e0, hc⟩ | ⟨e0, hc⟩ | ⟨b, hc⟩ <;>
      unfold health_check <;> rw [hc] <;> dsimp only <;>
      try exact ⟨rfl, rfl⟩
    rw [hmu]
    exact ⟨rfl, rfl⟩

/-- Claim C2 witness: the amended statement at the world with a missing
environment variable. -/
theorem c2_config_error_boundaries_witness :
    (get_deal wNoEnv "1").1 =
      .error (.valueError
        "Failed to get ActiveCampaign config from Nango: Missing required Nango environment variables") ∧
    statusField (health_check wNoEnv).1 = some (.str "error") ∧
    (messageField (health_check wNoEnv).1).isSome = true :=
  c2_config_error_boundaries wNoEnv "1" _ rfl

/-- Claim C7: when the broker's JSON body yields no usable
`credentials.apiKey` (or no `connection_config.hostname`), configuration
resolution fails with the wrapped credential `ValueError` and no request
of any method is ever sent to the target API. -/
theorem c7_missing_api_key (w : World) (b : Json) (m : String)
    (hb : (get_connection_credentials w).1 = .ok b)
    (hk : extract_api_key b = .error m ∨
          (∃ k, extract_api_key b = .ok k ∧ extract_hostname b = .error m)) :
    (get_activecampaign_config w).1 =
      .error (.valueError ("Failed to get ActiveCampaign config from Nango: " ++ m)) ∧
    ∀ meth ep d, apiCalls (make_request w meth ep d).2 = 0 ∧
      (make_request w meth ep d).1 =
        .error (.valueError ("Failed to get ActiveCampaign config from Nango: " ++ m)) := by
  have hc := creds_of_ok w b hb
  have hcfg : get_activecampaign_config w =
      (.error (.valueError ("Failed to get ActiveCampaign config from Nango: " ++ m)),
       [.brokerCall]) := by
    unfold get_activecampaign_config
    rw [hc]
    dsimp only
    rcases hk with hk1 | ⟨k, hk1, hh⟩
    · rw [hk1]
    · rw [hk1, hh]
  refine ⟨by rw [hcfg], fun meth ep d => ?_⟩
  rw [make_request_of_config_error w _ _ hcfg meth ep d]
  exact ⟨rfl, rfl⟩

/-- Claim C7 witness: the statement at a broker body lacking
`credentials.apiKey`, probing a GET on `/api/3/users`. -/
theorem c7_missing_api_key_witness :
    (get_activecampaign_config wNoKey).1 =
      .error (.valueError
        "Failed to get ActiveCampaign config from Nango: API key not found in Nango credentials") ∧
    apiCalls (make_request wNoKey "GET" "/api/3/users" none).2 = 0 ∧
    (make_request wNoKey "GET" "/api/3/users" none).1 =
      .error (.valueError
        "Failed to get ActiveCampaign config from Nango: API key not found in Nango credentials") :=
  ⟨(c7_missing_api_key wNoKey brokerBodyNoKey
      "API key not found in Nango credentials" rfl (Or.inl rfl)).1,
   ((c7_missing_api_key wNoKey brokerBodyNoKey
      "API key not found in Nango credentials" rfl (Or.inl rfl)).2 "GET" "/api/3/users" none).1,
   ((c7_missing_api_key wNoKey brokerBodyNoKey
      "API key not found in Nango credentials" rfl (Or.inl rfl)).2 "GET" "/api/3/users" none).2⟩

/-- Claim C4, counterexample: at a world whose API answers the non-2xx
status 300, `raise_for_status()` does not raise (it raises only for
400-599), so the executor returns the parsed response body as a plain
success value — not `{"error": ..., "status_code": 300}` — and
`get_deal`'s envelope has its `error` field unset, refuting the claim
for "every non-2xx status". -/
theorem c4_counterexample :
    (make_request w300 "GET" "/api/3/deals/1" none).1 = .ok (.obj []) ∧
    (get_deal w300 "1").1 =
      .ok { deal := none, deals := none, error := none } :=
  ⟨rfl, rfl⟩

/-- Claim C4 (amended): when the target API answers an error status in
400-599 — the non-2xx statuses `raise_for_status()` treats as failures,
such as 404 — the executor returns the value
`{"error": <message>, "status_code": <code>}` instead of raising, and
`get_deal`'s typed envelope carries that message in its `error` field
with `deal` and `deals` unset. -/
theorem c4_error_envelope (w : World) (d : String) (cfg : String × Json)
    (s : Nat) (b : Json)
    (hcfg : (get_activecampaign_config w).1 = .ok cfg)
    (hs : isErrorStatus s = true)
    (hapi : w.api "GET" (rstripSlash cfg.1 ++ ("/api/3/deals/" ++ d)) none =
      .resp s b) :
    (make_request w "GET" ("/api/3/deals/" ++ d) none).1 =
      .ok (.obj [("error",
                  .str (raiseForStatusMsg s (rstripSlash cfg.1 ++ ("/api/3/deals/" ++ d)))),
                 ("status_code", .num s)]) ∧
    (get_deal w d).1 =
      .ok { deal := none, deals := none,
            error := some (raiseForStatusMsg s (rstripSlash cfg.1 ++ ("/api/3/deals/" ++ d))) } := by
  have hmr := make_request_get w cfg hcfg ("/api/3/deals/" ++ d)
  rw [hapi] at hmr
  have hval : apiResultValue (.resp s b) (rstripSlash cfg.1 ++ ("/api/3/deals/" ++ d)) =
      .ok (.obj [("error",
                  .str (raiseForStatusMsg s (rstripSlash cfg.1 ++ ("/api/3/deals/" ++ d)))),
                 ("status_code", .num s)]) := by
    unfold apiResultValue
    dsimp only
    rw [hs]
    rfl
  rw [hval] at hmr
  refine ⟨by rw [hmr], ?_⟩
  unfold get_deal
  rw [hmr]
  rfl

/-- Claim C4 witness: at a world answering 404, `get_deal "1"` returns
the error envelope with the 404 message and unset item fields. -/
theorem c4_error_envelope_witness :
    (make_request w404 "GET" ("/api/3/deals/" ++ "1") none).1 =
      .ok (.obj [("error",
                  .str (raiseForStatusMsg 404
                    (rstripSlash "https://acme.api-us1.com" ++ ("/api/3/deals/" ++ "1")))),
                 ("status_code", .num 404)]) ∧
    (get_deal w404 "1").1 =
      .ok { deal := none, deals := none,
            error := some (raiseForStatusMsg 404
              (rstripSlash "https://acme.api-us1.com" ++ ("/api/3/deals/" ++ "1"))) } :=
  c4_error_envelope w404 "1" ("https://acme.api-us1.com", .str "k-123") 404 (.obj [])
    rfl rfl rfl

/-- Claim C5: once configuration resolves, `update_message` sends one
PUT whose body is a `"message"` object holding exactly the explicitly
supplied optional parameters — an entry exists for a key if and only if
the corresponding parameter was supplied, and its value is that string
(never null). -/
theorem c5_update_message_exact_body (w : World) (id : String)
    (n s f g : Option String) (cfg : String × Json)
    (h : (get_activecampaign_config w).1 = .ok cfg) :
    ∃ kvs,
      (update_message w id n s f g).2 =
        [.brokerCall, .brokerCall,
         .apiCall "PUT" (rstripSlash cfg.1 ++ ("/api/3/messages/" ++ id))
           (some (.obj [("message", .obj kvs)]))] ∧
      ∀ k v, (k, v) ∈ kvs ↔
        ((k = "name" ∧ ∃ x, n = some x ∧ v = .str x) ∨
         (k = "subject" ∧ ∃ x, s = some x ∧ v = .str x) ∨
         (k = "fromname" ∧ ∃ x, f = some x ∧ v = .str x) ∨
         (k = "fromemail" ∧ ∃ x, g = some x ∧ v = .str x)) := by
  refine ⟨_, update_message_sends w id n s f g cfg h, ?_⟩
  intro k v
  cases n <;> cases s <;> cases f <;> cases g <;>
    simp [update_message_body]

/-- Claim C5 witness: `update_message("42", subject="Hi")` at the
healthy world; the second conjunct evaluates the trace directly,
showing the body is exactly `{"message": {"subject": "Hi"}}`. -/
theorem c5_update_message_exact_body_witness :
    (∃ kvs,
      (update_message wGood "42" none (some "Hi") none none).2 =
        [.brokerCall, .brokerCall,
         .apiCall "PUT"
           (rstripSlash "https://acme.api-us1.com" ++ ("/api/3/messages/" ++ "42"))
           (some (.obj [("message", .obj kvs)]))] ∧
      ∀ k v, (k, v) ∈ kvs ↔
        ((k = "name" ∧ ∃ x, (none : Option String) = some x ∧ v = .str x) ∨
         (k = "subject" ∧ ∃ x, some "Hi" = some x ∧ v = .str x) ∨
         (k = "fromname" ∧ ∃ x, (none : Option String) = some x ∧ v = .str x) ∨
         (k = "fromemail" ∧ ∃ x, (none : Option String) = some x ∧ v = .str x))) ∧
    (update_message wGood "42" none (some "Hi") none none).2 =
      [.brokerCall, .brokerCall,
       .apiCall "PUT" "https://acme.api-us1.com/api/3/messages/42"
         (some (.obj [("message", .obj [("subject", .str "Hi")])]))] :=
  ⟨c5_update_message_exact_body wGood "42" none (some "Hi") none none
     ("https://acme.api-us1.com", .str "k-123") rfl, rfl⟩

/-- Claim C9: with all four optional parameters omitted,
`update_message` still performs exactly one PUT, whose body is exactly
`{"message": {}}`. -/
theorem c9_empty_update_still_puts (w : World) (id : String) (cfg : String × Json)
    (h : (get_activecampaign_config w).1 = .ok cfg) :
    (update_message w id none none none none).2 =
      [.brokerCall, .brokerCall,
       .apiCall "PUT" (rstripSlash cfg.1 ++ ("/api/3/messages/" ++ id))
         (some (.obj [("message", .obj [])]))] ∧
    apiCalls (update_message w id none none none none).2 = 1 := by
  have hs := update_message_sends w id none none none none cfg h
  exact ⟨hs, by rw [hs]; rfl⟩

/-- Claim C9 witness: the statement at the healthy world for message
id 42. -/
theorem c9_empty_update_still_puts_witness :
    (update_message wGood "42" none none none none).2 =
      [.brokerCall, .brokerCall,
       .apiCall "PUT"
         (rstripSlash "https://acme.api-us1.com" ++ ("/api/3/messages/" ++ "42"))
         (some (.obj [("message", .obj [])]))] ∧
    apiCalls (update_message wGood "42" none none none none).2 = 1 :=
  c9_empty_update_still_puts wGood "42" ("https://acme.api-us1.com", .str "k-123") rfl

/-- The trace of `list_custom_field_values` is exactly the trace of its
single executor call, whatever the mapper does with the result. -/
theorem list_cfv_trace (w : World) (f : String) :
    (list_custom_field_values w f).2 =
      (make_request w "GET" "/api/3/fieldValues" none).2 := by
  unfold list_custom_field_values
  rcases hm : make_request w "GET" "/api/3/fieldValues" none with ⟨r, t⟩
  rcases r with e | result <;> dsimp only
  cases FieldValueResponse.validate result <;> rfl

/-- Claim C8: `list_custom_field_values` ignores its `field_id`
argument — its whole outcome (result and trace) is identical for any
two values — and every API round trip it performs is a GET of
`/api/3/fieldValues` with no body. -/
theorem c8_field_id_ignored (w : World) (f1 f2 : String) :
    list_custom_field_values w f1 = list_custom_field_values w f2 ∧
    ∀ m u b, NetEvent.apiCall m u b ∈ (list_custom_field_values w f1).2 →
      m = "GET" ∧ b = none ∧ ∃ base, u = base ++ "/api/3/fieldValues" := by
  refine ⟨rfl, ?_⟩
  intro m u b hmem
  rw [list_cfv_trace w f1] at hmem
  rcases config_cases w with ⟨s, t, he, ht⟩ | ⟨cfg, he⟩
  · rw [make_request_of_config_error w _ _ he "GET" "/api/3/fieldValues" none] at hmem
    rcases ht with h | h <;> rw [h] at hmem <;> simp at hmem
  · have h1 : (get_activecampaign_config w).1 = .ok cfg := by rw [he]
    rw [make_request_get w cfg h1 "/api/3/fieldValues"] at hmem
    simp only [List.mem_cons, List.mem_singleton] at hmem
    rcases hmem with h | h | h | h
    · cases h
    · cases h
    · rcases NetEvent.apiCall.injEq .. ▸ h with ⟨hm, hu, hb⟩
      exact ⟨hm, hb, rstripSlash cfg.1, hu⟩
    · cases h

/-- Claim C8 witness: at the healthy world, the outputs for field ids
`"A"` and `"B"` coincide, and the concrete API round trip in the trace
is the bodiless GET of `/api/3/fieldValues`. -/
theorem c8_field_id_ignored_witness :
    list_custom_field_values wGood "A" = list_custom_field_values wGood "B" ∧
    ("GET" : String) = "GET" ∧ (none : Option Json) = none ∧
    ∃ base, "https://acme.api-us1.com/api/3/fieldValues" = base ++ "/api/3/fieldValues" :=
  have h := (c8_field_id_ignored wGood "A" "B").2 "GET"
    "https://acme.api-us1.com/api/3/fieldValues" none
    (List.Mem.tail _ (List.Mem.tail _ (List.Mem.head _)))
  ⟨(c8_field_id_ignored wGood "A" "B").1, h.1, h.2.1, h.2.2⟩

/-- Claim C6: when the broker probe and the API call both succeed,
`health_check` returns the ok dictionary whose `connection_id`,
`hostname` and `provider` come from the broker body; when the API call
yields an error envelope, it returns
`{"status": "error", "message": <that error>}`. -/
theorem c6_health_check (w : World) (creds : Json)
    (ckvs rkvs : List (String × Json)) (host : Option Json)
    (hcreds : (get_connection_credentials w).1 = .ok creds)
    (hobj : creds = .obj ckvs)
    (hcc : getChain creds "connection_config" "hostname" = .ok host)
    (hres : (make_request w "GET" "/api/3/users" none).1 = .ok (.obj rkvs)) :
    (jlookup rkvs "error" = none →
      (health_check w).1 =
        .obj [("status", .str "ok"),
              ("message", .str "API connection successful via Nango"),
              ("connection_id", (jlookup ckvs "connection_id").getD .null),
              ("hostname", host.getD .null),
              ("provider", (jlookup ckvs "provider").getD .null)]) ∧
    (∀ v, jlookup rkvs "error" = some v →
      (health_check w).1 = .obj [("status", .str "error"), ("message", v)]) := by
  have hc := creds_of_ok w creds hcreds
  have hm : make_request w "GET" "/api/3/users" none =
      (.ok (.obj rkvs), (make_request w "GET" "/api/3/users" none).2) := by
    rw [← hres]
  unfold health_check
  rw [hc, hm]
  dsimp only
  unfold pyInError
  dsimp only
  constructor
  · intro hnone
    rw [hnone]
    dsimp only [Option.isSome]
    subst hobj
    rw [pyGet_obj ckvs "connection_id", hcc, pyGet_obj ckvs "provider"]
  · intro v hv
    rw [hv]
    dsimp only [Option.isSome]
    unfold pyIndexError
    dsimp only
    rw [hv]

/-- Claim C6 witness: both halves instantiated at the healthy world
(ok path exercised; the error-path implication is vacuous there since
the 200 body has no `"error"` key). -/
theorem c6_health_check_witness :
    (health_check wGood).1 =
      .obj [("status", .str "ok"),
            ("message", .str "API connection successful via Nango"),
            ("connection_id", .str "conn-1"),
            ("hostname", .str "acme.api-us1.com"),
            ("provider", .str "activecampaign")] :=
  (c6_health_check wGood brokerBodyGood brokerBodyGoodKvs []
    (some (.str "acme.api-us1.com")) rfl rfl rfl rfl).1 rfl

/-- A successful `nango_info_dict` always opens with
`"status": "success"`. -/
theorem nango_info_dict_status (creds d : Json)
    (h : nango_info_dict creds = .ok d) :
    statusField d = some (.str "success") := by
  unfold nango_info_dict at h
  repeat' split at h
  all_goals cases h
  all_goals simp [statusField, jlookup]

/-- Claim C10: the two diagnostic tools never raise — for every world
they return a dictionary whose `status` is `"ok"`/`"success"` on
success or `"error"` (with a `message` entry) on any failure. -/
theorem c10_diagnostics_total (w : World) :
    (statusField (health_check w).1 = some (.str "ok") ∨
     (statusField (health_check w).1 = some (.str "error") ∧
      (messageField (health_check w).1).isSome = true)) ∧
    (statusField (get_nango_connection_info w).1 = some (.str "success") ∨
     (statusField (get_nango_connection_info w).1 = some (.str "error") ∧
      (messageField (get_nango_connection_info w).1).isSome = true)) := by
  constructor
  · unfold health_check
    rcases creds_cases w with ⟨e, hc⟩ | ⟨e, hc⟩ | ⟨b, hc⟩ <;> rw [hc] <;> (try dsimp only)
    · right; exact ⟨rfl, rfl⟩
    · right; exact ⟨rfl, rfl⟩
    · rcases hm : make_request w "GET" "/api/3/users" none with ⟨r, t2⟩
      rcases r with e | result <;> (try dsimp only)
      · right; exact ⟨rfl, rfl⟩
      · rcases hp : pyInError result with e | bval <;> (try dsimp only)
        · right; exact ⟨rfl, rfl⟩
        · cases bval <;> (try dsimp only)
          · rcases hg1 : pyGet b "connection_id" with e | cid <;> (try dsimp only)
            · right; exact ⟨rfl, rfl⟩
            · rcases hg2 : getChain b "connection_config" "hostname" with e | host <;>
                (try dsimp only)
              · right; exact ⟨rfl, rfl⟩
              · rcases hg3 : pyGet b "provider" with e | prov <;> (try dsimp only)
                · right; exact ⟨rfl, rfl⟩
                · left; exact rfl
          · rcases hpi : pyIndexError result with e | v <;> (try dsimp only)
            · right; exact ⟨rfl, rfl⟩
            · right; exact ⟨rfl, rfl⟩
  · unfold get_nango_connection_info
    rcases creds_cases w with ⟨e, hc⟩ | ⟨e, hc⟩ | ⟨b, hc⟩ <;> rw [hc] <;> (try dsimp only)
    · right; exact ⟨rfl, rfl⟩
    · right; exact ⟨rfl, rfl⟩
    · rcases hn : nango_info_dict b with e | d <;> (try dsimp only)
      · right; exact ⟨rfl, rfl⟩
      · left; exact nango_info_dict_status b d hn
